import Mathlib

/-!
Verification development for the `ultraman` repository
(`research_paper/scripts/*.py`): six standalone scripts that issue
plotting-library calls with literal coordinates and save each figure as a
`.png` and a `.pdf` under `/workspaces/ultraman/research_paper/images/`.

The embedding records, for every procedure, the ordered sequence of
plotting-library calls it issues (`Op`), with the numeric series of the
data-carrying calls of `generate_charts.py` kept exactly (as rationals),
because several claims are about those arrays.  The NumPy random stream is
modelled as an input `noise : ℕ → ℚ` (the i-th float drawn by
`np.random.normal`); a script's command line and environment are modelled
by `CliInput`.
-/

set_option maxRecDepth 8000

namespace Ultraman

/-- One plotting-library call issued by a diagram script.  `openFigure` is
`plt.subplots`/`plt.figure`; `draw` is any shape/text/axis-configuration
call, tagged with the method called; `drawData` is a data-carrying call of
`generate_charts.py` together with the numeric series it plots;
`savefig` is `plt.savefig` with the literal path and the `dpi` argument
(`none` when absent); `printMsg` is the trailing `print`.  `readFile` is a
file read: the model provides it, no script ever issues one. -/
inductive Op where
  | openFigure (tag : String)
  | draw (tag : String)
  | drawData (tag : String) (ys : List ℚ)
  | savefig (path : String) (dpi : Option Nat)
  | printMsg (msg : String)
  | readFile (path : String)
  deriving DecidableEq, Repr

/-- Tests whether an op is a `plt.savefig` export. -/
def Op.isSave : Op → Bool
  | .savefig _ _ => true
  | _ => false

/-- Tests whether an op reads a file. -/
def Op.isRead : Op → Bool
  | .readFile _ => true
  | _ => false

/-- Tests whether an op draws on (or configures) the in-memory figure. -/
def Op.isDrawCall : Op → Bool
  | .draw _ => true
  | .drawData _ _ => true
  | _ => false

/-- Tests whether an op has an effect outside the in-memory figure:
writing an image file, printing a status line, or reading a file. -/
def Op.isEffect : Op → Bool
  | .savefig _ _ => true
  | .printMsg _ => true
  | .readFile _ => true
  | _ => false

/-- The constructor shape of an op, with payloads erased. -/
inductive OpKind where
  | figure
  | draw
  | save
  | message
  | read
  deriving DecidableEq, Repr

/-- Maps an op to its payload-erased kind. -/
def Op.kind : Op → OpKind
  | .openFigure _ => .figure
  | .draw _ => .draw
  | .drawData _ _ => .draw
  | .savefig _ _ => .save
  | .printMsg _ => .message
  | .readFile _ => .read

/-- The fixed output directory every script saves into. -/
def imagesDir : String := "/workspaces/ultraman/research_paper/images/"

/-- The raster save of a figure: `<imagesDir><base>.png` at `dpi=300`. -/
def pngSave (base : String) : Op := .savefig (imagesDir ++ base ++ ".png") (some 300)

/-- The vector save of a figure: `<imagesDir><base>.pdf`, no dpi argument. -/
def pdfSave (base : String) : Op := .savefig (imagesDir ++ base ++ ".pdf") none

/-- The interface a standalone script invocation could observe: command
line arguments, environment variables, and the stream of floats the NumPy
random source would produce. -/
structure CliInput where
  argv : List String
  envVars : List (String × String)
  randFloats : ℕ → ℚ

/-! ### generate_charts.py — data arrays (names follow the source) -/

/-- Line 20: `actual_distances = np.array([0.5, 1.0, ..., 5.0])`. -/
def actual_distances : List ℚ := [1/2, 1, 3/2, 2, 5/2, 3, 7/2, 4, 9/2, 5]

/-- Line 21: `measured_distances = actual_distances + np.random.normal(0, 0.005, len(actual_distances))`.
This value is overwritten by the assignment on line 22 before any use. -/
def measured_distances_sampled (noise : ℕ → ℚ) : List ℚ :=
  (List.range actual_distances.length).map (fun i => actual_distances.getD i 0 + noise i)

/-- Line 22: the hard-coded reassignment of `measured_distances`. -/
def measured_distances : List ℚ :=
  [502/1000, 998/1000, 1506/1000, 2003/1000, 2495/1000,
   3008/1000, 3502/1000, 3997/1000, 4509/1000, 5004/1000]

/-- Line 41: `errors = (measured_distances - actual_distances) * 100` (cm). -/
def errors : List ℚ :=
  List.zipWith (fun m a => (m - a) * 100) measured_distances actual_distances

/-- Line 62: `temperatures = np.array([20, 25, 30, 35, 40, 45])`. -/
def temperatures : List ℚ := [20, 25, 30, 35, 40, 45]

/-- Line 63: `error_without_comp` (cm). -/
def error_without_comp : List ℚ := [8/10, 4/10, 1/10, -3/10, -7/10, -12/10]

/-- Line 64: `error_with_comp` (cm). -/
def error_with_comp : List ℚ := [1/10, 5/100, 2/100, -3/100, -8/100, -15/100]

/-- Line 85: `num_samples = [1, 3, 5, 10, 15, 20]`. -/
def num_samples : List ℚ := [1, 3, 5, 10, 15, 20]

/-- Line 86: `std_deviation = [1.5, 0.9, 0.6, 0.35, 0.25, 0.2]` (cm). -/
def std_deviation : List ℚ := [15/10, 9/10, 6/10, 35/100, 25/100, 2/10]

/-- Line 117: rain-condition accuracy percentages. -/
def accuracy : List ℚ := [995/10, 988/10, 972/10, 945/10, 890/10]

/-- Line 140: water-surface detection success rates. -/
def success_rate : List ℚ := [998/10, 992/10, 975/10, 930/10, 885/10]

/-- Line 156: `hours = np.arange(0, 25, 1)`. -/
def hours : List ℚ := (List.range 25).map (fun i => (i : ℚ))

/-- Line 157: `actual_level = 1.5` (metres). -/
def actual_level : ℚ := 3/2

/-- NumPy `np.clip(x, lo, hi)`: clamp `x` into `[lo, hi]`. -/
def npClip (lo hi x : ℚ) : ℚ := min (max x lo) hi

/-- Line 158: `measured_levels = actual_level + np.random.normal(0, 0.008, len(hours))`. -/
def measured_levels_sampled (noise : ℕ → ℚ) : List ℚ :=
  (List.range hours.length).map (fun i => actual_level + noise i)

/-- Line 159: `measured_levels = np.clip(measured_levels, actual_level - 0.02, actual_level + 0.02)`. -/
def measured_levels (noise : ℕ → ℚ) : List ℚ :=
  (measured_levels_sampled noise).map (npClip (actual_level - 2/100) (actual_level + 2/100))

/-- Line 178: sampling intervals (seconds). -/
def sampling_interval : List ℚ := [10, 30, 60, 120, 300, 600]

/-- Line 179: average power consumption (mW). -/
def power_consumption : List ℚ := [45, 28, 18, 12, 8, 5]

/-- Line 180: battery life (hours). -/
def battery_life : List ℚ := [48, 78, 120, 180, 270, 430]

/-- Line 214: the six radar-chart category labels. -/
def categories : List String :=
  ["Accuracy", "Range", "Cost\n(Inverse)", "Power\nEfficiency",
   "Waterproof\nRating", "Local\nAvailability"]

/-- Line 218: `custom_sensor = [9, 8, 9, 8, 9, 10]`. -/
def custom_sensor : List ℚ := [9, 8, 9, 8, 9, 10]

/-- Line 219: `maxbotix = [9, 8, 4, 7, 9, 3]`. -/
def maxbotix : List ℚ := [9, 8, 4, 7, 9, 3]

/-- Line 220: `generic = [6, 7, 10, 6, 5, 8]`. -/
def generic : List ℚ := [6, 7, 10, 6, 5, 8]

/-- Line 222: `angles = np.linspace(0, 2*np.pi, N, endpoint=False).tolist()`,
in units of π: entry `k` stands for the angle `(2*k/N)·π` radians. -/
def angles : List ℚ :=
  (List.range categories.length).map (fun k => 2 * (k : ℚ) / (categories.length : ℚ))

/-- Line 225: `custom_sensor += custom_sensor[:1]` (loop completion). -/
def custom_sensor_closed : List ℚ := custom_sensor ++ custom_sensor.take 1

/-- Line 226: `maxbotix += maxbotix[:1]`. -/
def maxbotix_closed : List ℚ := maxbotix ++ maxbotix.take 1

/-- Line 227: `generic += generic[:1]`. -/
def generic_closed : List ℚ := generic ++ generic.take 1

/-- Line 228: `angles += angles[:1]` (same π units as `angles`). -/
def angles_closed : List ℚ := angles ++ angles.take 1

/-- Line 252: sensor costs in Philippine Peso. -/
def costs : List ℚ := [850, 4500, 12000, 180, 350]

/-! ### generate_charts.py — call sequences -/

/-- Calls issued by `create_accuracy_chart` (lines 10–105).  The procedure
draws 10 floats from the random stream on line 21, but that array is
overwritten by the hard-coded array of line 22 before any drawing call, so
the call sequence does not depend on the stream (hence the unused binder). -/
def create_accuracy_chart_ops (_noise : ℕ → ℚ) : List Op :=
  [.openFigure "plt.subplots(2,2)",
   .drawData "ax1.plot" actual_distances,
   .drawData "ax1.scatter" measured_distances,
   .drawData "ax1.plot" measured_distances,
   .draw "ax1.set_xlabel", .draw "ax1.set_ylabel", .draw "ax1.set_title",
   .draw "ax1.legend", .draw "ax1.grid", .draw "ax1.set_xlim", .draw "ax1.set_ylim",
   .drawData "ax2.bar" errors,
   .draw "ax2.axhline", .draw "ax2.axhline", .draw "ax2.axhline",
   .draw "ax2.set_xlabel", .draw "ax2.set_ylabel", .draw "ax2.set_title",
   .draw "ax2.set_xticks", .draw "ax2.set_xticklabels", .draw "ax2.legend",
   .draw "ax2.grid", .draw "ax2.set_ylim",
   .drawData "ax3.bar" (error_without_comp.map (fun e => |e|)),
   .drawData "ax3.bar" (error_with_comp.map (fun e => |e|)),
   .draw "ax3.set_xlabel", .draw "ax3.set_ylabel", .draw "ax3.set_title",
   .draw "ax3.set_xticks", .draw "ax3.set_xticklabels", .draw "ax3.legend",
   .draw "ax3.grid",
   .drawData "ax4.plot" std_deviation,
   .draw "ax4.fill_between", .draw "ax4.axhline",
   .draw "ax4.set_xlabel", .draw "ax4.set_ylabel", .draw "ax4.set_title",
   .draw "ax4.legend", .draw "ax4.grid", .draw "ax4.set_xlim", .draw "ax4.set_ylim",
   .draw "plt.tight_layout",
   .savefig "/workspaces/ultraman/research_paper/images/accuracy_results.png" (some 300),
   .savefig "/workspaces/ultraman/research_paper/images/accuracy_results.pdf" none,
   .printMsg "Accuracy results chart saved!"]

/-- Calls issued by `create_environmental_tests` (lines 107–203).  The
24-hour stability panel (lines 156–171) plots `measured_levels`, which
depends on the 25 floats drawn from the random stream. -/
def create_environmental_tests_ops (noise : ℕ → ℚ) : List Op :=
  [.openFigure "plt.subplots(2,2)",
   .drawData "ax1.bar" accuracy,
   .draw "ax1.axhline",
   .draw "ax1.set_ylabel", .draw "ax1.set_title", .draw "ax1.set_ylim",
   .draw "ax1.legend", .draw "ax1.grid"]
  ++ List.replicate accuracy.length (Op.draw "ax1.text")
  ++ [.drawData "ax2.barh" success_rate,
   .draw "ax2.axvline",
   .draw "ax2.set_xlabel", .draw "ax2.set_title", .draw "ax2.set_xlim",
   .draw "ax2.legend", .draw "ax2.grid",
   .drawData "ax3.plot" (measured_levels noise),
   .draw "ax3.axhline", .draw "ax3.fill_between",
   .draw "ax3.set_xlabel", .draw "ax3.set_ylabel", .draw "ax3.set_title",
   .draw "ax3.legend", .draw "ax3.grid", .draw "ax3.set_xlim", .draw "ax3.set_ylim",
   .draw "ax4.twinx",
   .drawData "ax4.plot" power_consumption,
   .drawData "ax4_twin.plot" battery_life,
   .draw "ax4.set_xlabel", .draw "ax4.set_ylabel", .draw "ax4_twin.set_ylabel",
   .draw "ax4.set_title", .draw "ax4.tick_params", .draw "ax4_twin.tick_params",
   .draw "ax4.legend", .draw "ax4.grid",
   .draw "plt.tight_layout",
   .savefig "/workspaces/ultraman/research_paper/images/environmental_results.png" (some 300),
   .savefig "/workspaces/ultraman/research_paper/images/environmental_results.pdf" none,
   .printMsg "Environmental test results saved!"]

/-- Calls issued by `create_comparison_chart` (lines 205–276); it draws no
random data. -/
def create_comparison_chart_ops : List Op :=
  [.openFigure "plt.subplots(1,2)",
   .draw "plt.subplot(121,polar)",
   .draw "ax1.set_theta_offset", .draw "ax1.set_theta_direction",
   .drawData "ax1.plot" custom_sensor_closed, .drawData "ax1.fill" custom_sensor_closed,
   .drawData "ax1.plot" maxbotix_closed, .drawData "ax1.fill" maxbotix_closed,
   .drawData "ax1.plot" generic_closed, .drawData "ax1.fill" generic_closed,
   .draw "ax1.set_xticks", .draw "ax1.set_xticklabels", .draw "ax1.set_ylim",
   .draw "ax1.set_title", .draw "ax1.legend",
   .draw "plt.subplot(122)",
   .drawData "ax2.bar" costs,
   .draw "ax2.set_ylabel", .draw "ax2.set_title", .draw "ax2.grid"]
  ++ List.replicate costs.length (Op.draw "ax2.text")
  ++ [.draw "ax2.annotate",
   .draw "plt.tight_layout",
   .savefig "/workspaces/ultraman/research_paper/images/comparison_chart.png" (some 300),
   .savefig "/workspaces/ultraman/research_paper/images/comparison_chart.pdf" none,
   .printMsg "Comparison chart saved!"]

/-! ### generate_block_diagram.py -/

/-- Calls issued by `create_block_diagram` (lines 11–157), in source
order: one figure, axis configuration, boxes with their labels, the
arrows, free-standing labels, the legend, then the two saves and the
status line. -/
def create_block_diagram_ops : List Op :=
  [.openFigure "plt.subplots(1,1)",
   .draw "ax.set_xlim", .draw "ax.set_ylim", .draw "ax.set_aspect", .draw "ax.axis",
   .draw "ax.text",
   .draw "ax.add_patch", .draw "ax.text",
   .draw "ax.add_patch", .draw "ax.text",
   .draw "ax.add_patch", .draw "ax.text",
   .draw "ax.add_patch", .draw "ax.text",
   .draw "ax.add_patch", .draw "ax.text",
   .draw "ax.add_patch", .draw "ax.text", .draw "ax.text",
   .draw "ax.add_patch", .draw "ax.text", .draw "ax.text",
   .draw "ax.add_patch", .draw "ax.text",
   .draw "ax.add_patch", .draw "ax.text",
   .draw "ax.annotate", .draw "ax.annotate",
   .draw "ax.annotate",
   .draw "ax.annotate", .draw "ax.text",
   .draw "ax.annotate", .draw "ax.annotate",
   .draw "ax.annotate", .draw "ax.text",
   .draw "ax.annotate", .draw "ax.annotate", .draw "ax.annotate",
   .draw "ax.annotate",
   .draw "ax.text", .draw "ax.text", .draw "ax.text", .draw "ax.text",
   .draw "ax.text", .draw "ax.text",
   .draw "ax.legend",
   .draw "plt.tight_layout",
   .savefig "/workspaces/ultraman/research_paper/images/block_diagram.png" (some 300),
   .savefig "/workspaces/ultraman/research_paper/images/block_diagram.pdf" none,
   .printMsg "Block diagram saved!"]

/-! ### generate_pcb.py -/

/-- Calls issued by `create_pcb_layout` (lines 11–291).  Loops over
component positions are rendered with `List.replicate`/`List.flatten` using
the loop counts of the source (4 mounting holes with pad rings, 4-pin and
7-pin DIP sides, 3-pin packages, 5 capacitors, 7 resistors, 5 header
pins, 7 vias, 2 transducer outlines, 4 IC outlines). -/
def create_pcb_layout_ops : List Op :=
  [.openFigure "plt.subplots(1,2)",
   .draw "ax1.set_xlim", .draw "ax1.set_ylim", .draw "ax1.set_aspect",
   .draw "ax1.set_facecolor", .draw "ax1.set_title",
   .draw "ax1.add_patch"]
  ++ List.flatten (List.replicate 4 [Op.draw "ax1.add_patch", Op.draw "ax1.add_patch"])
  ++ [.draw "ax1.add_patch", .draw "ax1.add_patch", .draw "ax1.text", .draw "ax1.text",
   .draw "ax1.add_patch", .draw "ax1.add_patch", .draw "ax1.text", .draw "ax1.text",
   .draw "ax1.add_patch", .draw "ax1.text"]
  ++ List.flatten (List.replicate 4 [Op.draw "ax1.add_patch", Op.draw "ax1.add_patch"])
  ++ [.draw "ax1.text",
   .draw "ax1.add_patch", .draw "ax1.text"]
  ++ List.flatten (List.replicate 7 [Op.draw "ax1.add_patch", Op.draw "ax1.add_patch"])
  ++ [.draw "ax1.text",
   .draw "ax1.add_patch", .draw "ax1.text"]
  ++ List.replicate 3 (Op.draw "ax1.add_patch")
  ++ [.draw "ax1.text",
   .draw "ax1.add_patch", .draw "ax1.text"]
  ++ List.replicate 3 (Op.draw "ax1.add_patch")
  ++ [.draw "ax1.text",
   .draw "ax1.add_patch", .draw "ax1.text"]
  ++ List.replicate 3 (Op.draw "ax1.add_patch")
  ++ [.draw "ax1.text",
   .draw "ax1.add_patch", .draw "ax1.text", .draw "ax1.text"]
  ++ List.replicate 3 (Op.draw "ax1.add_patch")
  ++ [.draw "ax1.text"]
  ++ List.flatten (List.replicate 5 [Op.draw "ax1.add_patch", Op.draw "ax1.text"])
  ++ List.flatten (List.replicate 7 [Op.draw "ax1.add_patch", Op.draw "ax1.text"])
  ++ [.draw "ax1.add_patch", .draw "ax1.text"]
  ++ List.replicate 3 (Op.draw "ax1.add_patch")
  ++ [.draw "ax1.text",
   .draw "ax1.add_patch", .draw "ax1.text", .draw "ax1.text"]
  ++ List.flatten (List.replicate 5 [Op.draw "ax1.add_patch", Op.draw "ax1.text"])
  ++ [.draw "ax1.add_patch", .draw "ax1.text", .draw "ax1.text",
   .draw "ax1.text", .draw "ax1.text",
   .draw "ax1.text", .draw "ax1.text",
   .draw "ax2.set_xlim", .draw "ax2.set_ylim", .draw "ax2.set_aspect",
   .draw "ax2.set_facecolor", .draw "ax2.set_title",
   .draw "ax2.add_patch"]
  ++ List.replicate 4 (Op.draw "ax2.add_patch")
  ++ [.draw "ax2.add_patch", .draw "ax2.text",
   .draw "ax2.plot", .draw "ax2.plot", .draw "ax2.text",
   .draw "ax2.plot", .draw "ax2.plot", .draw "ax2.text",
   .draw "ax2.plot", .draw "ax2.plot", .draw "ax2.text",
   .draw "ax2.plot", .draw "ax2.plot", .draw "ax2.text",
   .draw "ax2.plot",
   .draw "ax2.plot",
   .draw "ax2.plot", .draw "ax2.text"]
  ++ List.replicate 7 (Op.draw "ax2.add_patch")
  ++ List.replicate 2 (Op.draw "ax2.add_patch")
  ++ List.replicate 4 (Op.draw "ax2.add_patch")
  ++ [.draw "ax2.text",
   .draw "ax2.plot", .draw "ax2.text",
   .draw "ax2.plot", .draw "ax2.text",
   .draw "ax2.plot", .draw "ax2.text",
   .draw "ax2.add_patch", .draw "ax2.text",
   .draw "ax2.annotate", .draw "ax2.text",
   .draw "ax2.annotate", .draw "ax2.text",
   .draw "plt.tight_layout",
   .savefig "/workspaces/ultraman/research_paper/images/pcb_layout.png" (some 300),
   .savefig "/workspaces/ultraman/research_paper/images/pcb_layout.pdf" none,
   .printMsg "PCB layout saved!"]

/-! ### generate_schematic.py — helper symbols, then the procedure -/

/-- Calls of `draw_resistor` (lines 13–38): the zig-zag points are built
in a Python loop and drawn with a single `ax.plot`; the label text is
drawn when a label is passed. -/
def draw_resistor (label : Bool) : List Op :=
  [.draw "ax.plot"] ++ (if label then [Op.draw "ax.text"] else [])

/-- Calls of `draw_capacitor` (lines 40–51): two plate strokes and the
optional label. -/
def draw_capacitor (label : Bool) : List Op :=
  [.draw "ax.plot", .draw "ax.plot"] ++ (if label then [Op.draw "ax.text"] else [])

/-- Calls of `draw_transistor_nmos` (lines 53–69): seven strokes, the
arrow, and the optional label. -/
def draw_transistor_nmos (label : Bool) : List Op :=
  List.replicate 7 (Op.draw "ax.plot")
  ++ [.draw "ax.annotate"] ++ (if label then [Op.draw "ax.text"] else [])

/-- Calls of `draw_opamp` (lines 71–79): the triangle patch, the two
input signs, and the optional label. -/
def draw_opamp (label : Bool) : List Op :=
  [.draw "ax.add_patch", .draw "ax.text", .draw "ax.text"]
  ++ (if label then [Op.draw "ax.text"] else [])

/-- Calls of `draw_transducer` (lines 81–94): outer and inner circles,
three wave arcs, and the label. -/
def draw_transducer : List Op :=
  [.draw "ax.add_patch", .draw "ax.add_patch"]
  ++ List.replicate 3 (Op.draw "ax.add_patch")
  ++ [.draw "ax.text"]

/-- Calls of `draw_ic_package` (lines 96–115): the body and its label,
then a stroke and a label per pin on each side. -/
def draw_ic_package (nLeft nRight : ℕ) : List Op :=
  [.draw "ax.add_patch", .draw "ax.text"]
  ++ List.flatten (List.replicate nLeft [Op.draw "ax.plot", Op.draw "ax.text"])
  ++ List.flatten (List.replicate nRight [Op.draw "ax.plot", Op.draw "ax.text"])

/-- Calls issued by `create_schematic` (lines 117–328), in source order,
expanding the helper symbols above at each call site (every helper call
in the source passes a label). -/
def create_schematic_ops : List Op :=
  [.openFigure "plt.subplots(1,1)",
   .draw "ax.set_xlim", .draw "ax.set_ylim", .draw "ax.set_aspect", .draw "ax.axis",
   .draw "ax.text", .draw "ax.text",
   .draw "ax.text"]
  ++ draw_transducer ++ [.draw "ax.text"]
  ++ draw_transducer ++ [.draw "ax.text",
   .draw "ax.text"]
  ++ draw_ic_package 4 4
  ++ [.draw "ax.plot", .draw "ax.plot", .draw "ax.plot", .draw "ax.plot"]
  ++ draw_capacitor true
  ++ [.draw "ax.text"]
  ++ draw_opamp true
  ++ [.draw "ax.plot"] ++ draw_resistor true
  ++ [.draw "ax.plot"]
  ++ draw_capacitor true
  ++ draw_resistor true ++ [.draw "ax.plot", .draw "ax.plot"]
  ++ draw_opamp true ++ [.draw "ax.plot"]
  ++ draw_resistor true ++ draw_resistor true ++ [.draw "ax.plot",
   .draw "ax.text",
   .draw "ax.text"]
  ++ draw_transistor_nmos true ++ draw_resistor true ++ draw_resistor true
  ++ [.draw "ax.text"]
  ++ draw_transistor_nmos true ++ draw_resistor true ++ draw_resistor true
  ++ [.draw "ax.text",
   .draw "ax.text"]
  ++ draw_ic_package 2 1
  ++ draw_capacitor true
  ++ draw_capacitor true
  ++ draw_ic_package 2 1
  ++ draw_capacitor true
  ++ [.draw "ax.plot", .draw "ax.plot", .draw "ax.plot",
   .draw "ax.text", .draw "ax.text"]
  ++ List.flatten (List.replicate 5
       [Op.draw "ax.plot", Op.draw "ax.plot", Op.draw "ax.plot", Op.draw "ax.plot"])
  ++ [.draw "ax.text",
   .draw "ax.add_patch", .draw "ax.text"]
  ++ List.flatten (List.replicate 5 [Op.draw "ax.plot", Op.draw "ax.add_patch", Op.draw "ax.text"])
  ++ [.draw "ax.text"]
  ++ draw_ic_package 2 1
  ++ draw_resistor true
  ++ [.draw "ax.plot", .draw "ax.plot",
   .draw "ax.plot",
   .draw "ax.plot",
   .draw "ax.plot", .draw "ax.plot",
   .draw "ax.text",
   .draw "ax.text",
   .draw "plt.tight_layout",
   .savefig "/workspaces/ultraman/research_paper/images/circuit_schematic.png" (some 300),
   .savefig "/workspaces/ultraman/research_paper/images/circuit_schematic.pdf" none,
   .printMsg "Circuit schematic saved!"]

/-! ### generate_enclosure.py -/

/-- Calls issued by `create_enclosure_2d` (lines 13–166): the side view on
`ax1` (including the 4-arc sound-wave loop), then the top view on `ax2`
(including the 4 mounting holes and 4 lid screws loops). -/
def create_enclosure_2d_ops : List Op :=
  [.openFigure "plt.subplots(1,2)",
   .draw "ax1.set_xlim", .draw "ax1.set_ylim", .draw "ax1.set_aspect",
   .draw "ax1.set_title", .draw "ax1.set_xlabel", .draw "ax1.set_ylabel",
   .draw "ax1.grid", .draw "ax1.axhline", .draw "ax1.axvline",
   .draw "ax1.add_patch",
   .draw "ax1.add_patch",
   .draw "ax1.add_patch",
   .draw "ax1.add_patch", .draw "ax1.text",
   .draw "ax1.add_patch", .draw "ax1.text",
   .draw "ax1.add_patch", .draw "ax1.text"]
  ++ List.replicate 4 (Op.draw "ax1.add_patch")
  ++ [.draw "ax1.text",
   .draw "ax1.add_patch", .draw "ax1.add_patch",
   .draw "ax1.add_patch", .draw "ax1.text",
   .draw "ax1.add_patch", .draw "ax1.add_patch",
   .draw "ax1.add_patch", .draw "ax1.add_patch",
   .draw "ax1.annotate", .draw "ax1.text",
   .draw "ax1.annotate", .draw "ax1.text",
   .draw "ax1.text",
   .draw "ax2.set_xlim", .draw "ax2.set_ylim", .draw "ax2.set_aspect",
   .draw "ax2.set_title", .draw "ax2.set_xlabel", .draw "ax2.set_ylabel",
   .draw "ax2.grid",
   .draw "ax2.add_patch",
   .draw "ax2.add_patch", .draw "ax2.add_patch", .draw "ax2.add_patch", .draw "ax2.add_patch"]
  ++ List.replicate 4 (Op.draw "ax2.add_patch")
  ++ [.draw "ax2.add_patch", .draw "ax2.text",
   .draw "ax2.add_patch", .draw "ax2.text"]
  ++ List.replicate 4 (Op.draw "ax2.add_patch")
  ++ [.draw "ax2.annotate", .draw "ax2.text",
   .draw "ax2.annotate", .draw "ax2.text",
   .draw "plt.tight_layout",
   .savefig "/workspaces/ultraman/research_paper/images/enclosure_2d.png" (some 300),
   .savefig "/workspaces/ultraman/research_paper/images/enclosure_2d.pdf" none,
   .printMsg "2D enclosure design saved!"]

/-- Calls issued by `create_enclosure_3d` (lines 168–304).  The mounting
bracket loop (lines 238–249) only builds vertex lists and issues no
drawing call, so it contributes nothing; the sound-wave loop issues four
`ax.plot` calls. -/
def create_enclosure_3d_ops : List Op :=
  [.openFigure "plt.figure",
   .draw "fig.add_subplot",
   .draw "ax.add_collection3d",
   .draw "ax.add_collection3d",
   .draw "ax.add_collection3d"]
  ++ List.replicate 4 (Op.draw "ax.plot")
  ++ [.draw "ax.plot",
   .draw "ax.text", .draw "ax.text", .draw "ax.text",
   .draw "ax.set_xlabel", .draw "ax.set_ylabel", .draw "ax.set_zlabel",
   .draw "ax.set_title",
   .draw "ax.view_init",
   .draw "ax.set_xlim", .draw "ax.set_ylim", .draw "ax.set_zlim",
   .draw "plt.tight_layout",
   .savefig "/workspaces/ultraman/research_paper/images/enclosure_3d.png" (some 300),
   .savefig "/workspaces/ultraman/research_paper/images/enclosure_3d.pdf" none,
   .printMsg "3D enclosure design saved!"]

/-- Calls issued by `create_mounting_diagram` (lines 306–392), including
the 5-arc sound-wave loop. -/
def create_mounting_diagram_ops : List Op :=
  [.openFigure "plt.subplots(1,1)",
   .draw "ax.set_xlim", .draw "ax.set_ylim", .draw "ax.set_aspect",
   .draw "ax.axis", .draw "ax.set_title",
   .draw "ax.add_patch", .draw "ax.text",
   .draw "ax.add_patch", .draw "ax.text",
   .draw "ax.add_patch", .draw "ax.text",
   .draw "ax.add_patch",
   .draw "ax.add_patch", .draw "ax.text",
   .draw "ax.add_patch",
   .draw "ax.plot", .draw "ax.text",
   .draw "ax.add_patch", .draw "ax.text"]
  ++ List.replicate 5 (Op.draw "ax.add_patch")
  ++ [.draw "ax.annotate", .draw "ax.text",
   .draw "ax.annotate", .draw "ax.text",
   .draw "ax.annotate", .draw "ax.text",
   .draw "ax.text", .draw "ax.text",
   .draw "plt.tight_layout",
   .savefig "/workspaces/ultraman/research_paper/images/mounting_diagram.png" (some 300),
   .savefig "/workspaces/ultraman/research_paper/images/mounting_diagram.pdf" none,
   .printMsg "Mounting diagram saved!"]

/-! ### generate_flowcharts.py — helper shapes, then the procedures -/

/-- Calls of `draw_start_end` (lines 11–15): ellipse and label. -/
def draw_start_end : List Op := [.draw "ax.add_patch", .draw "ax.text"]

/-- Calls of `draw_process` (lines 17–23): rounded box and label. -/
def draw_process : List Op := [.draw "ax.add_patch", .draw "ax.text"]

/-- Calls of `draw_decision` (lines 25–30): diamond and label. -/
def draw_decision : List Op := [.draw "ax.add_patch", .draw "ax.text"]

/-- Calls of `draw_io` (lines 32–41): parallelogram and label. -/
def draw_io : List Op := [.draw "ax.add_patch", .draw "ax.text"]

/-- Calls of `draw_arrow` (lines 43–50): the arrow annotation, plus the
label text when a non-empty label is passed. -/
def draw_arrow (label : Bool) : List Op :=
  [.draw "ax.annotate"] ++ (if label then [Op.draw "ax.text"] else [])

/-- Calls issued by `create_main_flowchart` (lines 52–160), expanding the
helper shapes at each call site in source order. -/
def create_main_flowchart_ops : List Op :=
  [.openFigure "plt.subplots(1,1)",
   .draw "ax.set_xlim", .draw "ax.set_ylim", .draw "ax.set_aspect", .draw "ax.axis",
   .draw "ax.text"]
  ++ draw_start_end
  ++ draw_process ++ draw_arrow false
  ++ draw_io ++ draw_arrow false
  ++ draw_process ++ draw_arrow false
  ++ draw_process ++ draw_arrow false
  ++ draw_decision ++ draw_arrow false
  ++ draw_process ++ draw_arrow true
  ++ draw_io ++ draw_arrow false
  ++ draw_process ++ draw_arrow false
  ++ draw_io ++ draw_arrow false
  ++ draw_process ++ draw_arrow false
  ++ draw_process ++ draw_arrow false
  ++ [.draw "ax.plot", .draw "ax.annotate"]
  ++ draw_process ++ draw_arrow true ++ [.draw "ax.plot"]
  ++ draw_process ++ draw_arrow false
  ++ draw_process ++ draw_arrow false
  ++ draw_io ++ draw_arrow false
  ++ draw_decision ++ draw_arrow false
  ++ draw_process ++ draw_arrow true
  ++ draw_process ++ draw_arrow true
  ++ draw_process ++ [.draw "ax.plot", .draw "ax.plot", .draw "ax.annotate"]
  ++ [.draw "ax.plot", .draw "ax.annotate",
   .draw "plt.tight_layout",
   .savefig "/workspaces/ultraman/research_paper/images/flowchart_main.png" (some 300),
   .savefig "/workspaces/ultraman/research_paper/images/flowchart_main.pdf" none,
   .printMsg "Main flowchart saved!"]

/-- Calls issued by `create_adaptive_flowchart` (lines 162–247). -/
def create_adaptive_flowchart_ops : List Op :=
  [.openFigure "plt.subplots(1,1)",
   .draw "ax.set_xlim", .draw "ax.set_ylim", .draw "ax.set_aspect", .draw "ax.axis",
   .draw "ax.text"]
  ++ draw_start_end
  ++ draw_io ++ draw_arrow false
  ++ draw_io ++ draw_arrow false
  ++ draw_process ++ draw_arrow false
  ++ draw_decision ++ draw_arrow false
  ++ draw_process ++ draw_arrow true
  ++ draw_decision ++ draw_arrow true
  ++ draw_process ++ draw_arrow true
  ++ draw_decision ++ draw_arrow true
  ++ draw_process ++ draw_arrow true
  ++ draw_process ++ draw_arrow true
  ++ [.draw "ax.plot", .draw "ax.plot", .draw "ax.plot"]
  ++ draw_process ++ draw_arrow false
  ++ draw_start_end ++ draw_arrow false
  ++ [.draw "ax.add_patch",
   .draw "ax.text", .draw "ax.text", .draw "ax.text", .draw "ax.text",
   .draw "ax.text", .draw "ax.text", .draw "ax.text", .draw "ax.text",
   .draw "plt.tight_layout",
   .savefig "/workspaces/ultraman/research_paper/images/flowchart_adaptive.png" (some 300),
   .savefig "/workspaces/ultraman/research_paper/images/flowchart_adaptive.pdf" none,
   .printMsg "Adaptive sampling flowchart saved!"]

/-- Calls issued by `create_outlier_flowchart` (lines 249–313). -/
def create_outlier_flowchart_ops : List Op :=
  [.openFigure "plt.subplots(1,1)",
   .draw "ax.set_xlim", .draw "ax.set_ylim", .draw "ax.set_aspect", .draw "ax.axis",
   .draw "ax.text"]
  ++ draw_start_end
  ++ draw_io ++ draw_arrow false
  ++ draw_process ++ draw_arrow false
  ++ draw_process ++ draw_arrow false
  ++ draw_process ++ draw_arrow false
  ++ draw_decision ++ draw_arrow false
  ++ draw_decision ++ draw_arrow true
  ++ draw_process ++ draw_arrow true
  ++ draw_process ++ draw_arrow true ++ [.draw "ax.plot"]
  ++ [.draw "ax.plot"]
  ++ draw_process ++ draw_arrow true ++ [.draw "ax.plot"]
  ++ draw_start_end ++ draw_arrow false
  ++ [.draw "plt.tight_layout",
   .savefig "/workspaces/ultraman/research_paper/images/flowchart_outlier.png" (some 300),
   .savefig "/workspaces/ultraman/research_paper/images/flowchart_outlier.pdf" none,
   .printMsg "Outlier rejection flowchart saved!"]

/-! ### Script entry points

Each `if __name__ == "__main__":` block calls its figure procedures
unconditionally; no script ever touches `sys.argv` or `os.environ`, so
the bodies below ignore `argv`/`envVars`.  `generate_charts.py` consumes
the random stream: `create_accuracy_chart` draws floats 0–9 and
`create_environmental_tests` the following 25 floats. -/

/-- The `__main__` block of `generate_block_diagram.py` (lines 159–160). -/
def generate_block_diagram_main (_i : CliInput) : List Op := create_block_diagram_ops

/-- The `__main__` block of `generate_charts.py` (lines 278–281). -/
def generate_charts_main (i : CliInput) : List Op :=
  create_accuracy_chart_ops i.randFloats
  ++ create_environmental_tests_ops (fun k => i.randFloats (10 + k))
  ++ create_comparison_chart_ops

/-- The `__main__` block of `generate_enclosure.py` (lines 394–397). -/
def generate_enclosure_main (_i : CliInput) : List Op :=
  create_enclosure_2d_ops ++ create_enclosure_3d_ops ++ create_mounting_diagram_ops

/-- The `__main__` block of `generate_flowcharts.py` (lines 315–318). -/
def generate_flowcharts_main (_i : CliInput) : List Op :=
  create_main_flowchart_ops ++ create_adaptive_flowchart_ops ++ create_outlier_flowchart_ops

/-- The `__main__` block of `generate_pcb.py` (lines 293–294). -/
def generate_pcb_main (_i : CliInput) : List Op := create_pcb_layout_ops

/-- The `__main__` block of `generate_schematic.py` (lines 330–331). -/
def generate_schematic_main (_i : CliInput) : List Op := create_schematic_ops

/-- The six scripts of the repository, with their entry points. -/
def allScriptMains : List (String × (CliInput → List Op)) :=
  [("generate_block_diagram.py", generate_block_diagram_main),
   ("generate_charts.py", generate_charts_main),
   ("generate_enclosure.py", generate_enclosure_main),
   ("generate_flowcharts.py", generate_flowcharts_main),
   ("generate_pcb.py", generate_pcb_main),
   ("generate_schematic.py", generate_schematic_main)]

/-- The twelve figure-producing procedures, each as a function of the
random stream (the procedures that never sample the stream ignore it). -/
def allProcedureOps : List (String × ((ℕ → ℚ) → List Op)) :=
  [("create_block_diagram", fun _ => create_block_diagram_ops),
   ("create_accuracy_chart", create_accuracy_chart_ops),
   ("create_environmental_tests", create_environmental_tests_ops),
   ("create_comparison_chart", fun _ => create_comparison_chart_ops),
   ("create_enclosure_2d", fun _ => create_enclosure_2d_ops),
   ("create_enclosure_3d", fun _ => create_enclosure_3d_ops),
   ("create_mounting_diagram", fun _ => create_mounting_diagram_ops),
   ("create_main_flowchart", fun _ => create_main_flowchart_ops),
   ("create_adaptive_flowchart", fun _ => create_adaptive_flowchart_ops),
   ("create_outlier_flowchart", fun _ => create_outlier_flowchart_ops),
   ("create_pcb_layout", fun _ => create_pcb_layout_ops),
   ("create_schematic", fun _ => create_schematic_ops)]

/-! ### Execution model with failures

A library call may fail (an exception).  An oracle `eff` assigns to each
call either `none` (success) or `some e` (it raises error `e`).  The
model's statement language has a `tryCatch` recovery construct, so that
"the scripts install no handler" is a fact about the translation, not
about the model; every script body consists of plain calls only. -/

/-- A Python statement relevant to failure handling: a plain library
call, or a `try:`/`except:` block running a handler when the body raises.
No script of this repository contains the latter. -/
inductive Stmt where
  | call (op : Op)
  | tryCatch (body handler : List Op)
  deriving DecidableEq

/-- Tests whether a statement is a `try`/`except` recovery block. -/
def Stmt.isTry : Stmt → Bool
  | .tryCatch _ _ => true
  | _ => false

/-- Views a sequence of plain calls as statements.  This is the
translation of every script body: the sources contain no `try`. -/
def liftCalls (ops : List Op) : List Stmt := ops.map Stmt.call

/-- Runs plain calls under the failure oracle: the first failure aborts
the run and becomes its result, unmodified. -/
def runOps (eff : Op → Option String) : List Op → Option String
  | [] => none
  | op :: rest =>
    match eff op with
    | some e => some e
    | none => runOps eff rest

/-- Runs statements under the failure oracle.  A raising plain call
aborts the whole run with its error; a `tryCatch` whose body raises
recovers by running the handler instead. -/
def runStmts (eff : Op → Option String) : List Stmt → Option String
  | [] => none
  | .call op :: rest =>
    match eff op with
    | some e => some e
    | none => runStmts eff rest
  | .tryCatch body handler :: rest =>
    match runOps eff body with
    | some _ =>
      match runOps eff handler with
      | some e => some e
      | none => runStmts eff rest
    | none => runStmts eff rest

/-- The statement sequence a script executes on input `i`. -/
def scriptStmts (m : CliInput → List Op) (i : CliInput) : List Stmt := liftCalls (m i)

/-- A failure oracle on which every `plt.savefig` raises (say, because
the output directory is unwritable) and every other call succeeds. -/
def failSaves : Op → Option String :=
  fun o => if o.isSave then some "unwritable output path" else none

/-! ### Observation helpers for the claims -/

/-- The save calls of a call sequence, in order. -/
def savesOf (ops : List Op) : List Op := ops.filter Op.isSave

/-- The file paths written by a call sequence, in order. -/
def outputPathsOf (ops : List Op) : List String :=
  ops.filterMap (fun o => match o with | .savefig p _ => some p | _ => none)

/-- Tests that no path of `a` occurs in any list of `rest`. -/
def disjointFromAll (a : List String) (rest : List (List String)) : Bool :=
  rest.all (fun b => a.all (fun p => !(b.contains p)))

/-- Tests that the path lists are pairwise disjoint. -/
def pairwiseDisjoint : List (List String) → Bool
  | [] => true
  | a :: rest => disjointFromAll a rest && pairwiseDisjoint rest

/-- Tests the single-pass shape of a procedure, on payload-erased kinds:
the first call opens the drawing surface, the following calls draw, and
from the first export on only exports and status messages occur (so
nothing is drawn after a save, and no second surface is opened). -/
def singlePass (ks : List OpKind) : Bool :=
  match ks with
  | .figure :: rest =>
    (rest.dropWhile (fun k => k == .draw)).all (fun k => k == .save || k == .message)
  | _ => false

/-- A sample interface input: no arguments, empty environment, an
all-zero random stream. -/
def plainInput : CliInput := ⟨[], [], fun _ => 0⟩

/-- The numeric series of the `n`-th call of a call sequence (empty when
that call carries no data). -/
def dataAt (n : ℕ) (ops : List Op) : List ℚ :=
  match (ops.drop n).head? with
  | some (.drawData _ ys) => ys
  | _ => []

/-- The first value of a numeric series (0 when empty). -/
def firstValue (xs : List ℚ) : ℚ := xs.headD 0

/-! ## Theorems -/

/-- Running plain calls surfaces the first failing call's error,
unmodified, whatever follows it. -/
theorem runOps_first_error (eff : Op → Option String) (pre : List Op) (op : Op)
    (post : List Op) (e : String) (hpre : ∀ o ∈ pre, eff o = none)
    (hop : eff op = some e) :
    runOps eff (pre ++ op :: post) = some e := by
  induction pre with
  | nil => simp [runOps, hop]
  | cons a t ih =>
    have ha : eff a = none := hpre a (List.mem_cons_self a t)
    have ht : ∀ o ∈ t, eff o = none := fun o ho => hpre o (List.mem_cons_of_mem a ho)
    simpa [runOps, ha] using ih ht

/-- On handler-free statement sequences the two runners agree. -/
theorem runStmts_liftCalls (eff : Op → Option String) (ops : List Op) :
    runStmts eff (liftCalls ops) = runOps eff ops := by
  induction ops with
  | nil => rfl
  | cons a t ih =>
    cases h : eff a with
    | none => simpa [liftCalls, runStmts, runOps, h] using ih
    | some e => simp [liftCalls, runStmts, runOps, h]

/-- Claim C1 counterexample: the call trace of `create_environmental_tests`
differs between two runs whose random streams differ, because the clipped
`measured_levels` series it plots depends on the drawn noise.  This
refutes the claim that every diagram-generating procedure produces an
identical sequence of drawn shapes on any two executions. -/
theorem environmental_trace_depends_on_random_stream :
    create_environmental_tests_ops (fun _ => 0)
      ≠ create_environmental_tests_ops (fun _ => 1/100) := by
  intro h
  have hv : firstValue (dataAt 20 (create_environmental_tests_ops (fun _ => 0)))
      = firstValue (dataAt 20 (create_environmental_tests_ops (fun _ => 1/100))) := by
    rw [h]
  have hv2 : npClip (actual_level - 2/100) (actual_level + 2/100) (actual_level + 0)
      = npClip (actual_level - 2/100) (actual_level + 2/100) (actual_level + 1/100) := hv
  norm_num [npClip, actual_level, min_def, max_def] at hv2

/-- Claim C1 (amended): every diagram-generating procedure except
`create_environmental_tests` issues the same call sequence on any two
executions, whatever the random stream; in particular the random
perturbation sampled by `create_accuracy_chart` is overwritten by a
hard-coded array before any drawing call. -/
theorem procedures_outside_environmental_are_random_independent
    (name : String) (p : (ℕ → ℚ) → List Op) (hmem : (name, p) ∈ allProcedureOps)
    (hne : name ≠ "create_environmental_tests") (r1 r2 : ℕ → ℚ) :
    p r1 = p r2 := by
  simp only [allProcedureOps, List.mem_cons, List.not_mem_nil, or_false,
    Prod.mk.injEq] at hmem
  rcases hmem with ⟨h1, rfl⟩ | ⟨h1, rfl⟩ | ⟨h1, rfl⟩ | ⟨h1, rfl⟩ | ⟨h1, rfl⟩ | ⟨h1, rfl⟩
    | ⟨h1, rfl⟩ | ⟨h1, rfl⟩ | ⟨h1, rfl⟩ | ⟨h1, rfl⟩ | ⟨h1, rfl⟩ | ⟨h1, rfl⟩
  all_goals first
    | rfl
    | exact absurd h1 hne

/-- Witness for the amended C1: `create_accuracy_chart` issues the same
calls under two different random streams. -/
theorem accuracy_chart_random_independent_witness :
    create_accuracy_chart_ops (fun _ => 0) = create_accuracy_chart_ops (fun _ => 1) :=
  procedures_outside_environmental_are_random_independent
    "create_accuracy_chart" create_accuracy_chart_ops
    (List.mem_cons_of_mem _ (List.mem_cons_self _ _)) (by decide) _ _

/-- Claim C2 counterexample: invoked as a standalone executable on a
concrete input, `generate_charts.py` saves six image files, not two. -/
theorem generate_charts_writes_six_image_files :
    (savesOf (generate_charts_main plainInput)).length = 6 ∧ (6 : ℕ) ≠ 2 := by
  exact ⟨rfl, by decide⟩

/-- Claim C2 (amended): on any invocation, a script's external effects
are exactly, in order, one `.png` save, one `.pdf` save, and one status
line on stdout per figure procedure it invokes (so two image files per
procedure — six for the three-figure scripts), and nothing else. -/
theorem script_effects_are_save_pairs_and_status_lines (i : CliInput) :
    (generate_block_diagram_main i).filter Op.isEffect =
      [pngSave "block_diagram", pdfSave "block_diagram",
       Op.printMsg "Block diagram saved!"] ∧
    (generate_charts_main i).filter Op.isEffect =
      [pngSave "accuracy_results", pdfSave "accuracy_results",
       Op.printMsg "Accuracy results chart saved!",
       pngSave "environmental_results", pdfSave "environmental_results",
       Op.printMsg "Environmental test results saved!",
       pngSave "comparison_chart", pdfSave "comparison_chart",
       Op.printMsg "Comparison chart saved!"] ∧
    (generate_enclosure_main i).filter Op.isEffect =
      [pngSave "enclosure_2d", pdfSave "enclosure_2d",
       Op.printMsg "2D enclosure design saved!",
       pngSave "enclosure_3d", pdfSave "enclosure_3d",
       Op.printMsg "3D enclosure design saved!",
       pngSave "mounting_diagram", pdfSave "mounting_diagram",
       Op.printMsg "Mounting diagram saved!"] ∧
    (generate_flowcharts_main i).filter Op.isEffect =
      [pngSave "flowchart_main", pdfSave "flowchart_main",
       Op.printMsg "Main flowchart saved!",
       pngSave "flowchart_adaptive", pdfSave "flowchart_adaptive",
       Op.printMsg "Adaptive sampling flowchart saved!",
       pngSave "flowchart_outlier", pdfSave "flowchart_outlier",
       Op.printMsg "Outlier rejection flowchart saved!"] ∧
    (generate_pcb_main i).filter Op.isEffect =
      [pngSave "pcb_layout", pdfSave "pcb_layout", Op.printMsg "PCB layout saved!"] ∧
    (generate_schematic_main i).filter Op.isEffect =
      [pngSave "circuit_schematic", pdfSave "circuit_schematic",
       Op.printMsg "Circuit schematic saved!"] := by
  exact ⟨rfl, rfl, rfl, rfl, rfl, rfl⟩

/-- Claim C3: each figure procedure performs exactly two saves: first the
`.png` at `dpi=300`, then the `.pdf` with no dpi argument, both into
`imagesDir` with the same basename. -/
theorem save_pairs_share_basename_png_dpi300_then_pdf :
    savesOf create_block_diagram_ops =
      [pngSave "block_diagram", pdfSave "block_diagram"] ∧
    (∀ noise, savesOf (create_accuracy_chart_ops noise) =
      [pngSave "accuracy_results", pdfSave "accuracy_results"]) ∧
    (∀ noise, savesOf (create_environmental_tests_ops noise) =
      [pngSave "environmental_results", pdfSave "environmental_results"]) ∧
    savesOf create_comparison_chart_ops =
      [pngSave "comparison_chart", pdfSave "comparison_chart"] ∧
    savesOf create_enclosure_2d_ops =
      [pngSave "enclosure_2d", pdfSave "enclosure_2d"] ∧
    savesOf create_enclosure_3d_ops =
      [pngSave "enclosure_3d", pdfSave "enclosure_3d"] ∧
    savesOf create_mounting_diagram_ops =
      [pngSave "mounting_diagram", pdfSave "mounting_diagram"] ∧
    savesOf create_main_flowchart_ops =
      [pngSave "flowchart_main", pdfSave "flowchart_main"] ∧
    savesOf create_adaptive_flowchart_ops =
      [pngSave "flowchart_adaptive", pdfSave "flowchart_adaptive"] ∧
    savesOf create_outlier_flowchart_ops =
      [pngSave "flowchart_outlier", pdfSave "flowchart_outlier"] ∧
    savesOf create_pcb_layout_ops =
      [pngSave "pcb_layout", pdfSave "pcb_layout"] ∧
    savesOf create_schematic_ops =
      [pngSave "circuit_schematic", pdfSave "circuit_schematic"] := by
  exact ⟨rfl, fun _ => rfl, fun _ => rfl, rfl, rfl, rfl, rfl, rfl, rfl, rfl, rfl, rfl⟩

/-- Claim C4: the scripts install no error handling of their own (their
translated bodies contain no `try`/`except` statement), so if any library
call raises while everything before it succeeded, the run aborts with
exactly that error. -/
theorem uncaught_library_error_aborts_script (s : String) (m : CliInput → List Op)
    (_hmem : (s, m) ∈ allScriptMains) (i : CliInput) (eff : Op → Option String)
    (pre : List Op) (op : Op) (post : List Op) (e : String)
    (hsplit : m i = pre ++ op :: post) (hpre : ∀ o ∈ pre, eff o = none)
    (hop : eff op = some e) :
    (scriptStmts m i).countP Stmt.isTry = 0 ∧
      runStmts eff (scriptStmts m i) = some e := by
  constructor
  · simp [scriptStmts, liftCalls, List.countP_eq_zero, Stmt.isTry]
  · rw [scriptStmts, runStmts_liftCalls, hsplit]
    exact runOps_first_error eff pre op post e hpre hop

/-- Witness for C4: with an oracle on which every save raises (an
unwritable output path), `generate_block_diagram.py` aborts with that
error, unmodified. -/
theorem unwritable_save_aborts_block_diagram_witness :
    (scriptStmts generate_block_diagram_main plainInput).countP Stmt.isTry = 0 ∧
      runStmts failSaves (scriptStmts generate_block_diagram_main plainInput)
        = some "unwritable output path" :=
  uncaught_library_error_aborts_script "generate_block_diagram.py"
    generate_block_diagram_main (List.mem_cons_self _ _) plainInput failSaves
    (create_block_diagram_ops.takeWhile (fun o => !o.isSave))
    (pngSave "block_diagram")
    [pdfSave "block_diagram", Op.printMsg "Block diagram saved!"]
    "unwritable output path" (by decide) (by decide) (by decide)

/-- Claim C5: every figure procedure is single-pass: it first opens its
drawing surface, then issues only drawing calls, and from the first
export on issues only exports and status messages — nothing is drawn
after the figure has been saved. -/
theorem procedures_are_single_pass_draw_then_export :
    singlePass (create_block_diagram_ops.map Op.kind) = true ∧
    (∀ noise, singlePass ((create_accuracy_chart_ops noise).map Op.kind) = true) ∧
    (∀ noise, singlePass ((create_environmental_tests_ops noise).map Op.kind) = true) ∧
    singlePass (create_comparison_chart_ops.map Op.kind) = true ∧
    singlePass (create_enclosure_2d_ops.map Op.kind) = true ∧
    singlePass (create_enclosure_3d_ops.map Op.kind) = true ∧
    singlePass (create_mounting_diagram_ops.map Op.kind) = true ∧
    singlePass (create_main_flowchart_ops.map Op.kind) = true ∧
    singlePass (create_adaptive_flowchart_ops.map Op.kind) = true ∧
    singlePass (create_outlier_flowchart_ops.map Op.kind) = true ∧
    singlePass (create_pcb_layout_ops.map Op.kind) = true ∧
    singlePass (create_schematic_ops.map Op.kind) = true := by
  exact ⟨rfl, fun _ => rfl, fun _ => rfl, rfl, rfl, rfl, rfl, rfl, rfl, rfl, rfl, rfl⟩

/-- Claim C6: on any invocation, the six scripts write pairwise disjoint
sets of output paths, and none of them issues a single file read. -/
theorem scripts_write_disjoint_paths_and_read_nothing (i : CliInput) :
    pairwiseDisjoint
      [outputPathsOf (generate_block_diagram_main i),
       outputPathsOf (generate_charts_main i),
       outputPathsOf (generate_enclosure_main i),
       outputPathsOf (generate_flowcharts_main i),
       outputPathsOf (generate_pcb_main i),
       outputPathsOf (generate_schematic_main i)] = true ∧
    ((generate_block_diagram_main i ++ generate_charts_main i
      ++ generate_enclosure_main i ++ generate_flowcharts_main i
      ++ generate_pcb_main i ++ generate_schematic_main i).all
        (fun o => !o.isRead)) = true := by
  exact ⟨rfl, rfl⟩

/-- Claim C7: no script inspects its command line or environment: two
invocations that agree on the random stream (but may differ arbitrarily
in arguments and environment variables) produce identical call
sequences for every script. -/
theorem script_mains_ignore_argv_and_env (i1 i2 : CliInput)
    (hrand : i1.randFloats = i2.randFloats) :
    generate_block_diagram_main i1 = generate_block_diagram_main i2 ∧
    generate_charts_main i1 = generate_charts_main i2 ∧
    generate_enclosure_main i1 = generate_enclosure_main i2 ∧
    generate_flowcharts_main i1 = generate_flowcharts_main i2 ∧
    generate_pcb_main i1 = generate_pcb_main i2 ∧
    generate_schematic_main i1 = generate_schematic_main i2 := by
  refine ⟨rfl, ?_, rfl, rfl, rfl, rfl⟩
  simp only [generate_charts_main, hrand]

/-- Witness for C7: an invocation with arguments and environment
variables behaves like the bare invocation. -/
theorem script_mains_ignore_argv_and_env_witness :
    generate_block_diagram_main ⟨["--flag"], [("HOME", "/tmp")], fun _ => 0⟩
      = generate_block_diagram_main plainInput ∧
    generate_charts_main ⟨["--flag"], [("HOME", "/tmp")], fun _ => 0⟩
      = generate_charts_main plainInput ∧
    generate_enclosure_main ⟨["--flag"], [("HOME", "/tmp")], fun _ => 0⟩
      = generate_enclosure_main plainInput ∧
    generate_flowcharts_main ⟨["--flag"], [("HOME", "/tmp")], fun _ => 0⟩
      = generate_flowcharts_main plainInput ∧
    generate_pcb_main ⟨["--flag"], [("HOME", "/tmp")], fun _ => 0⟩
      = generate_pcb_main plainInput ∧
    generate_schematic_main ⟨["--flag"], [("HOME", "/tmp")], fun _ => 0⟩
      = generate_schematic_main plainInput :=
  script_mains_ignore_argv_and_env _ _ rfl

/-- Claim C8: the hard-coded `measured_distances` differ from
`actual_distances` by strictly less than 0.01 m at each of the ten test
points, so every entry of `errors` (in cm) lies strictly inside the
±1 cm threshold lines of the error-distribution panel. -/
theorem accuracy_errors_within_one_centimeter :
    measured_distances.length = actual_distances.length ∧
    (∀ d ∈ List.zipWith (fun m a => |m - a|) measured_distances actual_distances,
      d < 1/100) ∧
    (∀ e ∈ errors, |e| < 1) := by
  refine ⟨rfl, ?_, ?_⟩
  · intro d hd
    simp only [measured_distances, actual_distances, List.zipWith_cons_cons,
      List.zipWith_nil_left, List.mem_cons, List.not_mem_nil, or_false] at hd
    rcases hd with rfl | rfl | rfl | rfl | rfl | rfl | rfl | rfl | rfl | rfl <;> norm_num [abs_lt]
  · intro e he
    simp only [errors, measured_distances, actual_distances, List.zipWith_cons_cons,
      List.zipWith_nil_left, List.mem_cons, List.not_mem_nil, or_false] at he
    rcases he with rfl | rfl | rfl | rfl | rfl | rfl | rfl | rfl | rfl | rfl <;> norm_num [abs_lt]

/-- Witness for C8 at the first test point: the 0.5 m measurement errs by
0.002 m, under the 0.01 m bound, and its 0.2 cm bar is inside ±1 cm. -/
theorem accuracy_errors_within_one_centimeter_witness :
    |(502 : ℚ)/1000 - 1/2| < 1/100 ∧ |((502 : ℚ)/1000 - 1/2) * 100| < 1 :=
  ⟨accuracy_errors_within_one_centimeter.2.1 _ (List.mem_cons_self _ _),
   accuracy_errors_within_one_centimeter.2.2 _ (List.mem_cons_self _ _)⟩

/-- Claim C9: whatever noise vector is drawn, every plotted
`measured_levels` entry lies in the clipping band
`[1.48, 1.52] = actual_level ± 0.02`, hence inside the panel's y-limits
`[1.45, 1.55]`. -/
theorem stability_levels_clipped_within_band (noise : ℕ → ℚ) (x : ℚ)
    (hx : x ∈ measured_levels noise) :
    148/100 ≤ x ∧ x ≤ 152/100 ∧ 145/100 ≤ x ∧ x ≤ 155/100 := by
  obtain ⟨y, -, rfl⟩ := List.mem_map.mp hx
  have hlo : (148 : ℚ)/100 ≤ npClip (actual_level - 2/100) (actual_level + 2/100) y := by
    unfold npClip actual_level
    exact le_min (le_trans (by norm_num) (le_max_right y _)) (by norm_num)
  have hhi : npClip (actual_level - 2/100) (actual_level + 2/100) y ≤ 152/100 := by
    unfold npClip actual_level
    exact le_trans (min_le_right _ _) (by norm_num)
  exact ⟨hlo, hhi, le_trans (by norm_num) hlo, le_trans hhi (by norm_num)⟩

/-- Witness for C9: the first plotted level of the all-zero noise run
(the clipped value of 1.5 + 0) satisfies the bounds. -/
theorem stability_levels_clipped_within_band_witness :
    148/100 ≤ npClip (actual_level - 2/100) (actual_level + 2/100) (actual_level + 0) ∧
      npClip (actual_level - 2/100) (actual_level + 2/100) (actual_level + 0) ≤ 152/100 ∧
      145/100 ≤ npClip (actual_level - 2/100) (actual_level + 2/100) (actual_level + 0) ∧
      npClip (actual_level - 2/100) (actual_level + 2/100) (actual_level + 0) ≤ 155/100 :=
  stability_levels_clipped_within_band (fun _ => 0) _ (List.mem_cons_self _ _)

/-- Claim C10: after the loop-completion appends, the three radar series
and the angles list all have length N+1 = 7 and end with their first
element, so each plotted radar polygon is closed. -/
theorem radar_series_closed_with_length_seven :
    categories.length = 6 ∧
    custom_sensor_closed.length = categories.length + 1 ∧
    maxbotix_closed.length = categories.length + 1 ∧
    generic_closed.length = categories.length + 1 ∧
    angles_closed.length = categories.length + 1 ∧
    custom_sensor_closed.getLast? = custom_sensor_closed.head? ∧
    maxbotix_closed.getLast? = maxbotix_closed.head? ∧
    generic_closed.getLast? = generic_closed.head? ∧
    angles_closed.getLast? = angles_closed.head? := by
  exact ⟨rfl, rfl, rfl, rfl, rfl, rfl, rfl, rfl, rfl⟩

end Ultraman
